import Mathlib

/-!
Shallow embedding of the dxf-cheddar layout engine
(src/generate_dxf.py, with the divergent variants of src/main.py
modelled separately where the two files disagree).

Python floats are modelled as real numbers; Python lists as `List`;
a raised `AssertionError` / `ValueError` as an `Option` error component
paired with the state or output that exists at the moment of the raise.
-/

namespace Dxf

/-- L_frame from generate_dxf.py: a bent profile with one corner. -/
structure L_frame where
  width : ℝ
  horizontal_length : ℝ
  vertical_length : ℝ
  angle : ℝ
  thickness : ℝ

/-- U_frame from generate_dxf.py: a bent profile with two corners. -/
structure U_frame where
  width : ℝ
  horizontal_length : ℝ
  vertical_length_left : ℝ
  vertical_length_right : ℝ
  angle_left : ℝ
  angle_right : ℝ
  thickness : ℝ

/-- Hole variants: Circle(radius) and Slot(radius, length, angle). -/
inductive Hole where
  | circle (radius : ℝ)
  | slot (radius length angle : ℝ)

/-- Hole width as computed in the constructors of generate_dxf.py:
Circle: `self.width = self.radius * 2`;
Slot: `self.width = (self.length * math.cos(self.angle)) + (2 * self.radius)`. -/
noncomputable def Hole.width : Hole → ℝ
  | .circle radius => radius * 2
  | .slot radius length angle => length * Real.cos angle + 2 * radius

/-- Hole height as computed in the constructors of generate_dxf.py:
Circle: `self.height = self.radius * 2`;
Slot: `self.height = (self.length * math.sin(self.angle)) + (2 * self.radius)`. -/
noncomputable def Hole.height : Hole → ℝ
  | .circle radius => radius * 2
  | .slot radius length angle => length * Real.sin angle + 2 * radius

/-- Slot width in main.py: `(self.length + (2 * self.radius)) * math.cos(self.angle)`. -/
noncomputable def main_slot_width (radius length angle : ℝ) : ℝ :=
  (length + 2 * radius) * Real.cos angle

/-- Modelled from the spec: the corrected slot bounding-box width demanded in
section 3 — half-length offsets `(length/2)*cos(angle)` applied to each
end-circle center plus the radius in each axis, i.e.
`length*|cos(angle)| + 2*radius`. Missing from src/ (neither variant
implements it). -/
noncomputable def claimed_slot_width (radius length angle : ℝ) : ℝ :=
  length * |Real.cos angle| + 2 * radius

/-- Modelled from the spec: the corrected slot bounding-box height,
`length*|sin(angle)| + 2*radius`. -/
noncomputable def claimed_slot_height (radius length angle : ℝ) : ℝ :=
  length * |Real.sin angle| + 2 * radius

/-- The plate rectangle. Field order follows the attribute assignments in
`Rectangle.__init__` of generate_dxf.py. -/
structure Rectangle where
  width : ℝ
  height : ℝ
  thickness : ℝ
  offset_from_side : ℝ
  offset_from_bottom : ℝ
  holes : List Hole
  holes_total_width : ℝ

/-- `Rectangle.__init__(self, width, height, offset_from_side=0,
offset_from_bottom=0, thickness=1)`: parameters in the Python positional
order, holes start empty with zero total width. -/
def Rectangle.init (width height offset_from_side offset_from_bottom thickness : ℝ) :
    Rectangle :=
  { width := width
    height := height
    thickness := thickness
    offset_from_side := offset_from_side
    offset_from_bottom := offset_from_bottom
    holes := []
    holes_total_width := 0 }

/-- `Rectangle.from_L_frame` of generate_dxf.py. The Python call
`Rectangle(l_frame.width, height, l_frame.thickness)` passes the frame's
thickness as the THIRD positional argument, which is `offset_from_side`;
`offset_from_bottom` and `thickness` keep their defaults 0 and 1. -/
noncomputable def Rectangle.from_L_frame (f : L_frame) : Rectangle :=
  Rectangle.init f.width
    (f.horizontal_length + f.vertical_length - (if f.angle = 90 then 1 else 0.5))
    f.thickness 0 1

/-- `Rectangle.from_U_frame` of generate_dxf.py; the same positional-argument
binding applies to the final `Rectangle(...)` call. -/
noncomputable def Rectangle.from_U_frame (f : U_frame) : Rectangle :=
  Rectangle.init f.width
    (f.horizontal_length + f.vertical_length_left + f.vertical_length_right
      - (if f.angle_left = 90 then 1 else 0.5)
      - (if f.angle_right = 90 then 1 else 0.5))
    f.thickness 0 1

/-- The height computed by `Rectangle.from_L_frame` in main.py. Its line 78
reads `(1 if l_frame == 90 else 0.5)`: it compares the frame OBJECT, not its
angle, to 90, which Python evaluates to False for every frame, so the
condition of the bend allowance is constantly false. -/
noncomputable def main_from_L_frame_height (f : L_frame) : ℝ :=
  f.horizontal_length + f.vertical_length - (if False then 1 else 0.5)

/-- Modelled from the spec: the bend-allowance policy of section 4.1,
1 for a 90-degree corner and 0.5 for any other angle. -/
noncomputable def bend_allowance (angle : ℝ) : ℝ :=
  if angle = 90 then 1 else 0.5

/-- The spec's FitViolation, split by which of the two asserts of
`Rectangle.add_holes` fired: `holesDontFit` for the assert with message
"holes don't fit into the rectangle", `holeTooLarge` for "hole too large". -/
inductive FitError where
  | holesDontFit
  | holeTooLarge

/-- State after the two mutating lines of the `add_holes` loop body:
`self.holes.append(hole)` and `self.holes_total_width += hole.width`. -/
noncomputable def appendHole (r : Rectangle) (h : Hole) : Rectangle :=
  { r with
    holes := r.holes ++ [h]
    holes_total_width := r.holes_total_width + h.width }

/-- `Rectangle.add_holes` of generate_dxf.py. Each loop iteration first
mutates (append + accumulate), then runs the two asserts in order. A raised
AssertionError is modelled as the mutated state at the moment of the raise,
paired with the error; later list elements are not processed. -/
noncomputable def addHoles : Rectangle → List Hole → Rectangle × Option FitError
  | r, [] => (r, none)
  | r, h :: hs =>
    if (appendHole r h).width >
        2 * (appendHole r h).offset_from_side + (appendHole r h).holes_total_width then
      if (appendHole r h).height ≥ (appendHole r h).offset_from_bottom + h.height then
        addHoles (appendHole r h) hs
      else (appendHole r h, some FitError.holeTooLarge)
    else (appendHole r h, some FitError.holesDontFit)

/-- The ValueError "Need to have at least two holes" of `DXF.add_rectangle`;
the spec calls it InsufficientHoles. -/
inductive LayoutError where
  | insufficientHoles

/-- Primitive placements handed to the drawing backend: the rectangle outline
(the translated `box(width, height)` polyline), a circle, or a straight
segment. `line` exists in the vocabulary so that the absence of connecting
segments between slot end circles is expressible; nothing emits it. -/
inductive Shape where
  | outline (x y width height : ℝ)
  | circle (cx cy radius : ℝ)
  | line (x1 y1 x2 y2 : ℝ)

/-- `space_between_holes` of `DXF.add_rectangle`: the width minus both side
offsets minus the total hole width, divided by (number of holes - 1). -/
noncomputable def space_between_holes (r : Rectangle) : ℝ :=
  (r.width - 2 * r.offset_from_side - r.holes_total_width) / ((r.holes.length : ℝ) - 1)

/-- `hole_center_x` of the loop in `DXF.add_rectangle`: `start_from_x +
offset_from_side + (i * hole.width + hole.width / 2) + (i *
space_between_holes)` — note the `i * hole.width` term uses the width of the
CURRENT hole, index i. -/
noncomputable def hole_center_x (r : Rectangle) (start_from_x : ℝ) (i : ℕ) (h : Hole) : ℝ :=
  start_from_x + r.offset_from_side + ((i : ℝ) * h.width + h.width / 2)
    + (i : ℝ) * space_between_holes r

/-- `hole_center_y` of the loop in `DXF.add_rectangle`:
`start_from_y + offset_from_bottom + hole.height / 2`. -/
noncomputable def hole_center_y (r : Rectangle) (start_from_y : ℝ) (h : Hole) : ℝ :=
  start_from_y + r.offset_from_bottom + h.height / 2

/-- The backend calls made for one hole at its computed center: one circle for
a Circle; for a Slot, the left end circle at `(cx - length/2*cos angle,
cy + length/2*sin angle)` then the right end circle at `(cx +
length/2*cos angle, cy - length/2*sin angle)`, both of the slot's radius.
No connecting lines are drawn (the source marks this with a TODO). -/
noncomputable def holeShapes (cx cy : ℝ) : Hole → List Shape
  | .circle radius => [.circle cx cy radius]
  | .slot radius length angle =>
      [.circle (cx - length / 2 * Real.cos angle) (cy + length / 2 * Real.sin angle) radius,
       .circle (cx + length / 2 * Real.cos angle) (cy - length / 2 * Real.sin angle) radius]

/-- The `for i, hole in enumerate(rectangle.holes)` loop of
`DXF.add_rectangle`, with the enumeration index made explicit. -/
noncomputable def drawHoles (r : Rectangle) (sx sy : ℝ) : ℕ → List Hole → List Shape
  | _, [] => []
  | i, h :: hs =>
      holeShapes (hole_center_x r sx i h) (hole_center_y r sy h) h
        ++ drawHoles r sx sy (i + 1) hs

/-- `DXF.add_rectangle`: the outline polyline is sent to the backend first;
then the hole count is checked (raising the ValueError for 0 or 1 holes with
the outline already emitted); then every hole's shapes are emitted in order.
The result pairs the backend calls made with the error, if one was raised. -/
noncomputable def add_rectangle (r : Rectangle) (start_from_x start_from_y : ℝ) :
    List Shape × Option LayoutError :=
  if r.holes.length ≤ 1 then
    ([Shape.outline start_from_x start_from_y r.width r.height],
      some LayoutError.insufficientHoles)
  else
    (Shape.outline start_from_x start_from_y r.width r.height
      :: drawHoles r start_from_x start_from_y 0 r.holes, none)

/-- Modelled from the spec (section 4.3): the claimed i-th hole center x,
`start_x + offset_from_side + sum of widths of holes 0..i-1 + hole[i].width/2
+ i * gap`. -/
noncomputable def claimed_center_x (r : Rectangle) (start_from_x : ℝ) (i : ℕ) (h : Hole) : ℝ :=
  start_from_x + r.offset_from_side + ((r.holes.take i).map Hole.width).sum
    + h.width / 2 + (i : ℝ) * space_between_holes r

/-- A 10 x 10 plate with no offsets, used as a concrete evaluation input. -/
noncomputable def fitRect : Rectangle := Rectangle.init 10 10 0 0 1

/-- The state of `fitRect` after successfully attaching one Circle(1). -/
noncomputable def fitRectMid : Rectangle := ⟨10, 10, 1, 0, 0, [Hole.circle 1], 2⟩

/-- A wide but low 100 x 5 plate with no offsets, used as a concrete input on
which a tall hole passes the horizontal assert and fails the vertical one. -/
noncomputable def tallRect : Rectangle := Rectangle.init 100 5 0 0 1

/-- The state of `tallRect` after successfully attaching one Circle(1). -/
noncomputable def tallRectMid : Rectangle := ⟨100, 5, 1, 0, 0, [Hole.circle 1], 2⟩

/-- A plate carrying two Slot(1, 4, 0) holes, used as a concrete input. -/
noncomputable def slotRect : Rectangle :=
  ⟨30, 10, 1, 0, 0, [Hole.slot 1 4 0, Hole.slot 1 4 0], 12⟩

/-- A 20 x 10 plate carrying Circle(1) and Circle(2): two validly attached
holes of different widths, used as a concrete layout input. -/
noncomputable def unevenRect : Rectangle :=
  ⟨20, 10, 1, 0, 0, [Hole.circle 1, Hole.circle 2], 6⟩

theorem appendHole_width (r : Rectangle) (h : Hole) : (appendHole r h).width = r.width := rfl

theorem appendHole_height (r : Rectangle) (h : Hole) :
    (appendHole r h).height = r.height := rfl

theorem appendHole_offset_from_side (r : Rectangle) (h : Hole) :
    (appendHole r h).offset_from_side = r.offset_from_side := rfl

theorem appendHole_offset_from_bottom (r : Rectangle) (h : Hole) :
    (appendHole r h).offset_from_bottom = r.offset_from_bottom := rfl

theorem appendHole_holes (r : Rectangle) (h : Hole) :
    (appendHole r h).holes = r.holes ++ [h] := rfl

theorem appendHole_holes_total_width (r : Rectangle) (h : Hole) :
    (appendHole r h).holes_total_width = r.holes_total_width + h.width := rfl

/-- On success, `addHoles` appends the supplied holes in order and adds each
hole's width to the running total. -/
theorem addHoles_success (hs : List Hole) : ∀ (r s : Rectangle),
    addHoles r hs = (s, none) →
    s.holes = r.holes ++ hs ∧
    s.holes_total_width = r.holes_total_width + (hs.map Hole.width).sum := by
  induction hs with
  | nil =>
    intro r s hpre
    simp only [addHoles, Prod.mk.injEq] at hpre
    simp [← hpre.1]
  | cons h t ih =>
    intro r s hpre
    simp only [addHoles] at hpre
    split_ifs at hpre with h1 h2
    · obtain ⟨e1, e2⟩ := ih (appendHole r h) s hpre
      constructor
      · simp [e1, appendHole_holes]
      · simp [e2, appendHole_holes_total_width]
        ring
    · simp at hpre
    · simp at hpre

/-- Processing a list that starts with an already-processed successful prefix
continues from the state the prefix produced. -/
theorem addHoles_append (hs1 : List Hole) : ∀ (r s : Rectangle) (hs2 : List Hole),
    addHoles r hs1 = (s, none) →
    addHoles r (hs1 ++ hs2) = addHoles s hs2 := by
  induction hs1 with
  | nil =>
    intro r s hs2 hpre
    simp only [addHoles, Prod.mk.injEq] at hpre
    simp [hpre.1]
  | cons h t ih =>
    intro r s hs2 hpre
    simp only [addHoles, List.cons_append] at hpre ⊢
    split_ifs at hpre ⊢ with h1 h2
    · exact ih (appendHole r h) s hs2 hpre
    · simp at hpre
    · simp at hpre

/-- A hole whose appended width already exhausts the horizontal room fails
the first assert immediately, with the state mutated by the append. -/
theorem addHoles_fail_horizontal (s : Rectangle) (h : Hole) (hs2 : List Hole)
    (hviol : s.width ≤ 2 * s.offset_from_side + (s.holes_total_width + h.width)) :
    addHoles s (h :: hs2) = (appendHole s h, some FitError.holesDontFit) := by
  simp only [addHoles]
  rw [if_neg]
  simp only [appendHole_width, appendHole_offset_from_side, appendHole_holes_total_width]
  exact not_lt.2 hviol

/-- A hole that passes the horizontal assert but is too tall fails the second
assert immediately, with the state mutated by the append. -/
theorem addHoles_fail_vertical (s : Rectangle) (h : Hole) (hs2 : List Hole)
    (hfit : s.width > 2 * s.offset_from_side + (s.holes_total_width + h.width))
    (htall : s.height < s.offset_from_bottom + h.height) :
    addHoles s (h :: hs2) = (appendHole s h, some FitError.holeTooLarge) := by
  simp only [addHoles]
  rw [if_pos, if_neg]
  · simp only [appendHole_height, appendHole_offset_from_bottom]
    exact not_le.2 htall
  · simp only [appendHole_width, appendHole_offset_from_side, appendHole_holes_total_width]
    exact hfit

/-- C7: flattening a U-frame yields height
`horizontal_length + vertical_length_left + vertical_length_right -
bend_allowance(angle_left) - bend_allowance(angle_right)`, each allowance
computed independently by the 1-if-90-else-0.5 rule; in particular
horizontal 50, verticals 10 and 10 with angles 90 and 45 give 68.5. -/
theorem from_U_frame_height_formula :
    (∀ u : U_frame, (Rectangle.from_U_frame u).height =
      u.horizontal_length + u.vertical_length_left + u.vertical_length_right
        - bend_allowance u.angle_left - bend_allowance u.angle_right) ∧
    (∀ w t : ℝ, (Rectangle.from_U_frame ⟨w, 50, 10, 10, 90, 45, t⟩).height = 68.5) := by
  refine ⟨fun u => rfl, fun w t => ?_⟩
  norm_num [Rectangle.from_U_frame, Rectangle.init, bend_allowance]

/-- C2: the two script variants disagree on the L-frame flattened height.
generate_dxf.py subtracts 1 at angle 90 as the claim states, but main.py
compares the frame object (not its angle) to 90 and therefore subtracts 0.5
even at angle 90: on L_frame(200, 50, 10, 90, 1) it returns 59.5 where the
claim requires 59. -/
theorem from_L_frame_height_variants_disagree :
    (Rectangle.from_L_frame ⟨200, 50, 10, 90, 1⟩).height = 59 ∧
    main_from_L_frame_height ⟨200, 50, 10, 90, 1⟩ = 59.5 := by
  constructor
  · norm_num [Rectangle.from_L_frame, Rectangle.init]
  · norm_num [main_from_L_frame_height]

/-- C3: flattening does not copy the frame's thickness and does not leave
`offset_from_side` at zero: the Python calls `Rectangle(width, height,
thickness)` bind the thickness to the third positional parameter
`offset_from_side`, so an L-frame of thickness 2 flattens to a rectangle with
`offset_from_side = 2` and `thickness = 1`, and a U-frame of thickness 3 to
`offset_from_side = 3` and `thickness = 1`. -/
theorem flatten_misassigns_thickness :
    (Rectangle.from_L_frame ⟨200, 50, 10, 90, 2⟩).offset_from_side = 2 ∧
    (Rectangle.from_L_frame ⟨200, 50, 10, 90, 2⟩).thickness = 1 ∧
    (Rectangle.from_U_frame ⟨100, 50, 10, 10, 90, 90, 3⟩).offset_from_side = 3 ∧
    (Rectangle.from_U_frame ⟨100, 50, 10, 10, 90, 90, 3⟩).thickness = 1 :=
  ⟨rfl, rfl, rfl, rfl⟩

/-- C6: the slot bounding-box width computed by generate_dxf.py
(`length*cos(angle) + 2*radius`, no absolute value) differs from the claimed
first-principles bounding box `length*|cos(angle)| + 2*radius`: at
Slot(radius 1, length 10, angle pi) the code yields width -8 while the
claimed formula yields 12. -/
theorem slot_bbox_formula_mismatch :
    Hole.width (Hole.slot 1 10 Real.pi) = -8 ∧
    claimed_slot_width 1 10 Real.pi = 12 := by
  constructor
  · simp [Hole.width, Real.cos_pi]
    norm_num
  · simp [claimed_slot_width, Real.cos_pi]
    norm_num

/-- C4: `add_holes` appends the supplied holes in order, adds each width to
`holes_total_width`, and runs both asserts after every single append: after a
successful prefix hs1 (reaching state s), a hole h whose appended width makes
`2*offset_from_side + holes_total_width` reach the width fails with the
horizontal FitViolation immediately, before any hole of hs2 is processed; a
hole that fits horizontally but is too tall fails the vertical assert the
same way. -/
theorem add_holes_spec (r s : Rectangle) (hs1 hs2 : List Hole) (h : Hole)
    (hpre : addHoles r hs1 = (s, none)) :
    s.holes = r.holes ++ hs1 ∧
    s.holes_total_width = r.holes_total_width + (hs1.map Hole.width).sum ∧
    (s.width ≤ 2 * s.offset_from_side + (s.holes_total_width + h.width) →
      addHoles r (hs1 ++ h :: hs2) = (appendHole s h, some FitError.holesDontFit)) ∧
    (s.width > 2 * s.offset_from_side + (s.holes_total_width + h.width) →
      s.height < s.offset_from_bottom + h.height →
      addHoles r (hs1 ++ h :: hs2) = (appendHole s h, some FitError.holeTooLarge)) := by
  obtain ⟨e1, e2⟩ := addHoles_success hs1 r s hpre
  refine ⟨e1, e2, fun hviol => ?_, fun hfit htall => ?_⟩
  · rw [addHoles_append hs1 r s (h :: hs2) hpre]
    exact addHoles_fail_horizontal s h hs2 hviol
  · rw [addHoles_append hs1 r s (h :: hs2) hpre]
    exact addHoles_fail_vertical s h hs2 hfit htall

/-- Witness for C4 on the concrete plate `fitRect`: attaching Circle(1)
succeeds and reaches `fitRectMid`; the theorem then describes what happens
when Circle(4) follows with another Circle(1) after it. -/
theorem add_holes_spec_witness :
    addHoles fitRect [Hole.circle 1] = (fitRectMid, none) ∧
    (fitRectMid.holes = fitRect.holes ++ [Hole.circle 1] ∧
     fitRectMid.holes_total_width
       = fitRect.holes_total_width + ([Hole.circle 1].map Hole.width).sum ∧
     (fitRectMid.width ≤ 2 * fitRectMid.offset_from_side
         + (fitRectMid.holes_total_width + (Hole.circle 4).width) →
       addHoles fitRect ([Hole.circle 1] ++ Hole.circle 4 :: [Hole.circle 1])
         = (appendHole fitRectMid (Hole.circle 4), some FitError.holesDontFit)) ∧
     (fitRectMid.width > 2 * fitRectMid.offset_from_side
         + (fitRectMid.holes_total_width + (Hole.circle 4).width) →
       fitRectMid.height < fitRectMid.offset_from_bottom + (Hole.circle 4).height →
       addHoles fitRect ([Hole.circle 1] ++ Hole.circle 4 :: [Hole.circle 1])
         = (appendHole fitRectMid (Hole.circle 4), some FitError.holeTooLarge))) :=
  have hpre : addHoles fitRect [Hole.circle 1] = (fitRectMid, none) := by
    norm_num [addHoles, appendHole, fitRect, fitRectMid, Rectangle.init,
      Hole.width, Hole.height, Rectangle.mk.injEq]
  ⟨hpre, add_holes_spec fitRect fitRectMid [Hole.circle 1] [Hole.circle 1]
    (Hole.circle 4) hpre⟩

/-- C9: `add_holes` is not atomic on failure: after a successful prefix hs1, a
hole h that fires either assert (its appended width exhausts the horizontal
room, or it is too tall) leaves the rectangle with h already appended
(holes = original ++ hs1 ++ [h]) and h's width already accumulated, with no
rollback, in a state that violates the fit invariant (the horizontal bound
fails, or some attached hole fails the vertical bound); the holes of hs2 are
never processed. -/
theorem add_holes_not_atomic (r s : Rectangle) (hs1 hs2 : List Hole) (h : Hole)
    (hpre : addHoles r hs1 = (s, none))
    (hviol : s.width ≤ 2 * s.offset_from_side + (s.holes_total_width + h.width) ∨
      s.height < s.offset_from_bottom + h.height) :
    (addHoles r (hs1 ++ h :: hs2)).snd ≠ none ∧
    (addHoles r (hs1 ++ h :: hs2)).fst.holes = r.holes ++ hs1 ++ [h] ∧
    (addHoles r (hs1 ++ h :: hs2)).fst.holes_total_width
      = r.holes_total_width + (hs1.map Hole.width).sum + h.width ∧
    (¬ ((addHoles r (hs1 ++ h :: hs2)).fst.width >
          2 * (addHoles r (hs1 ++ h :: hs2)).fst.offset_from_side
            + (addHoles r (hs1 ++ h :: hs2)).fst.holes_total_width) ∨
      ∃ hole ∈ (addHoles r (hs1 ++ h :: hs2)).fst.holes,
        ¬ ((addHoles r (hs1 ++ h :: hs2)).fst.height ≥
            (addHoles r (hs1 ++ h :: hs2)).fst.offset_from_bottom + hole.height)) := by
  obtain ⟨e1, e2⟩ := addHoles_success hs1 r s hpre
  have hstep : addHoles r (hs1 ++ h :: hs2) = addHoles s (h :: hs2) :=
    addHoles_append hs1 r s (h :: hs2) hpre
  by_cases hL : s.width ≤ 2 * s.offset_from_side + (s.holes_total_width + h.width)
  · have heq : addHoles r (hs1 ++ h :: hs2)
        = (appendHole s h, some FitError.holesDontFit) := by
      rw [hstep]
      exact addHoles_fail_horizontal s h hs2 hL
    rw [heq]
    refine ⟨by simp, ?_, ?_, Or.inl ?_⟩
    · rw [appendHole_holes, e1, List.append_assoc]
    · rw [appendHole_holes_total_width, e2]
    · simp only [appendHole_width, appendHole_offset_from_side, appendHole_holes_total_width]
      exact not_lt.2 hL
  · have hfit : s.width > 2 * s.offset_from_side + (s.holes_total_width + h.width) :=
      not_le.1 hL
    have hV : s.height < s.offset_from_bottom + h.height := hviol.resolve_left hL
    have heq : addHoles r (hs1 ++ h :: hs2)
        = (appendHole s h, some FitError.holeTooLarge) := by
      rw [hstep]
      exact addHoles_fail_vertical s h hs2 hfit hV
    rw [heq]
    refine ⟨by simp, ?_, ?_, Or.inr ⟨h, ?_, ?_⟩⟩
    · rw [appendHole_holes, e1, List.append_assoc]
    · rw [appendHole_holes_total_width, e2]
    · simp [appendHole_holes]
    · simp only [appendHole_height, appendHole_offset_from_bottom]
      exact not_le.2 hV

/-- Witness for C9 on the concrete plate `tallRect` (100 x 5): Circle(1)
attaches successfully, then Circle(4) passes the horizontal assert
(100 > 0 + 10) but is too tall (5 < 8), so the run with a further Circle(1)
pending fails the vertical assert and leaves the mutated,
invariant-violating state. -/
theorem add_holes_not_atomic_witness :
    (addHoles tallRect [Hole.circle 1] = (tallRectMid, none) ∧
     (tallRectMid.width ≤ 2 * tallRectMid.offset_from_side
         + (tallRectMid.holes_total_width + (Hole.circle 4).width) ∨
      tallRectMid.height < tallRectMid.offset_from_bottom + (Hole.circle 4).height)) ∧
    ((addHoles tallRect ([Hole.circle 1] ++ Hole.circle 4 :: [Hole.circle 1])).snd ≠ none ∧
     (addHoles tallRect ([Hole.circle 1] ++ Hole.circle 4 :: [Hole.circle 1])).fst.holes
        = tallRect.holes ++ [Hole.circle 1] ++ [Hole.circle 4] ∧
     (addHoles tallRect ([Hole.circle 1] ++ Hole.circle 4 :: [Hole.circle 1])).fst.holes_total_width
        = tallRect.holes_total_width + ([Hole.circle 1].map Hole.width).sum
            + (Hole.circle 4).width ∧
     (¬ ((addHoles tallRect ([Hole.circle 1] ++ Hole.circle 4 :: [Hole.circle 1])).fst.width >
           2 * (addHoles tallRect ([Hole.circle 1] ++ Hole.circle 4 :: [Hole.circle 1])).fst.offset_from_side
             + (addHoles tallRect ([Hole.circle 1] ++ Hole.circle 4 :: [Hole.circle 1])).fst.holes_total_width) ∨
      ∃ hole ∈ (addHoles tallRect ([Hole.circle 1] ++ Hole.circle 4 :: [Hole.circle 1])).fst.holes,
        ¬ ((addHoles tallRect ([Hole.circle 1] ++ Hole.circle 4 :: [Hole.circle 1])).fst.height ≥
            (addHoles tallRect ([Hole.circle 1] ++ Hole.circle 4 :: [Hole.circle 1])).fst.offset_from_bottom
              + hole.height))) :=
  have hpre : addHoles tallRect [Hole.circle 1] = (tallRectMid, none) := by
    norm_num [addHoles, appendHole, tallRect, tallRectMid, Rectangle.init,
      Hole.width, Hole.height, Rectangle.mk.injEq]
  have hviol : tallRectMid.width ≤ 2 * tallRectMid.offset_from_side
      + (tallRectMid.holes_total_width + (Hole.circle 4).width) ∨
      tallRectMid.height < tallRectMid.offset_from_bottom + (Hole.circle 4).height :=
    Or.inr (by norm_num [tallRectMid, Hole.height])
  ⟨⟨hpre, hviol⟩, add_holes_not_atomic tallRect tallRectMid [Hole.circle 1]
    [Hole.circle 1] (Hole.circle 4) hpre hviol⟩

/-- C5: `add_rectangle` raises InsufficientHoles exactly when the rectangle
carries zero or one hole. -/
theorem add_rectangle_insufficient_holes_iff (r : Rectangle) (sx sy : ℝ) :
    (add_rectangle r sx sy).snd = some LayoutError.insufficientHoles ↔
      r.holes.length ≤ 1 := by
  unfold add_rectangle
  split_ifs with hlen
  · simp [hlen]
  · simp [hlen]

/-- C10: with 0 or 1 holes, `add_rectangle` still emits the rectangle outline
to the backend before raising InsufficientHoles: the failing run's output is
exactly the outline. -/
theorem add_rectangle_outline_before_hole_check (r : Rectangle) (sx sy : ℝ)
    (hlen : r.holes.length ≤ 1) :
    add_rectangle r sx sy
      = ([Shape.outline sx sy r.width r.height], some LayoutError.insufficientHoles) := by
  unfold add_rectangle
  rw [if_pos hlen]

/-- Witness for C10 on a concrete 5 x 5 plate with no holes attached. -/
theorem add_rectangle_outline_before_hole_check_witness :
    (Rectangle.init 5 5 0 0 1).holes.length ≤ 1 ∧
    add_rectangle (Rectangle.init 5 5 0 0 1) 0 0
      = ([Shape.outline 0 0 (Rectangle.init 5 5 0 0 1).width
            (Rectangle.init 5 5 0 0 1).height],
          some LayoutError.insufficientHoles) :=
  ⟨by simp [Rectangle.init],
   add_rectangle_outline_before_hole_check (Rectangle.init 5 5 0 0 1) 0 0
     (by simp [Rectangle.init])⟩

theorem holeShapes_no_line (cx cy : ℝ) (h : Hole) (x1 y1 x2 y2 : ℝ) :
    Shape.line x1 y1 x2 y2 ∉ holeShapes cx cy h := by
  cases h <;> simp [holeShapes]

theorem drawHoles_no_line (r : Rectangle) (sx sy x1 y1 x2 y2 : ℝ) :
    ∀ (l : List Hole) (j : ℕ), Shape.line x1 y1 x2 y2 ∉ drawHoles r sx sy j l := by
  intro l
  induction l with
  | nil =>
    intro j
    simp [drawHoles]
  | cons a t ih =>
    intro j
    simp only [drawHoles, List.mem_append]
    rintro (hmem | hmem)
    · exact holeShapes_no_line _ _ a x1 y1 x2 y2 hmem
    · exact ih (j + 1) hmem

theorem add_rectangle_no_line (r : Rectangle) (sx sy x1 y1 x2 y2 : ℝ) :
    Shape.line x1 y1 x2 y2 ∉ (add_rectangle r sx sy).fst := by
  unfold add_rectangle
  split_ifs with hlen
  · simp
  · simp only [List.mem_cons]
    rintro (hmem | hmem)
    · exact Shape.noConfusion hmem
    · exact drawHoles_no_line r sx sy x1 y1 x2 y2 r.holes 0 hmem

/-- A shape emitted for the hole at position i of the list is in the output of
the enumeration loop started at index j. -/
theorem mem_drawHoles (r : Rectangle) (sx sy : ℝ) :
    ∀ (l : List Hole) (j i : ℕ) (h : Hole), l.get? i = some h →
      ∀ s ∈ holeShapes (hole_center_x r sx (j + i) h) (hole_center_y r sy h) h,
        s ∈ drawHoles r sx sy j l := by
  intro l
  induction l with
  | nil =>
    intro j i h hi
    simp [List.get?] at hi
  | cons a t ih =>
    intro j i h hi s hs
    cases i with
    | zero =>
      simp only [List.get?] at hi
      obtain rfl : a = h := by injection hi
      simp only [drawHoles, List.mem_append]
      exact Or.inl (by simpa using hs)
    | succ n =>
      simp only [List.get?] at hi
      have e : j + 1 + n = j + (n + 1) := by omega
      rw [← e] at hs
      simp only [drawHoles, List.mem_append]
      exact Or.inr (ih (j + 1) n h hi s hs)

/-- C8: for a Slot hole at position i of a laid-out rectangle, exactly two
circles are emitted, each of the slot's radius, at the computed center offset
by -(length/2)cos(angle), +(length/2)sin(angle) for the left end and
+(length/2)cos(angle), -(length/2)sin(angle) for the right end; the midpoint
of the two centers is the computed center, and no line segments appear
anywhere in the layout output. -/
theorem add_rectangle_slot_two_circles (r : Rectangle) (sx sy : ℝ) (i : ℕ)
    (rad len ang : ℝ)
    (hi : r.holes.get? i = some (Hole.slot rad len ang))
    (hlen : 2 ≤ r.holes.length) :
    holeShapes (hole_center_x r sx i (Hole.slot rad len ang))
        (hole_center_y r sy (Hole.slot rad len ang)) (Hole.slot rad len ang)
      = [Shape.circle
            (hole_center_x r sx i (Hole.slot rad len ang) - len / 2 * Real.cos ang)
            (hole_center_y r sy (Hole.slot rad len ang) + len / 2 * Real.sin ang) rad,
         Shape.circle
            (hole_center_x r sx i (Hole.slot rad len ang) + len / 2 * Real.cos ang)
            (hole_center_y r sy (Hole.slot rad len ang) - len / 2 * Real.sin ang) rad] ∧
    Shape.circle
        (hole_center_x r sx i (Hole.slot rad len ang) - len / 2 * Real.cos ang)
        (hole_center_y r sy (Hole.slot rad len ang) + len / 2 * Real.sin ang) rad
      ∈ (add_rectangle r sx sy).fst ∧
    Shape.circle
        (hole_center_x r sx i (Hole.slot rad len ang) + len / 2 * Real.cos ang)
        (hole_center_y r sy (Hole.slot rad len ang) - len / 2 * Real.sin ang) rad
      ∈ (add_rectangle r sx sy).fst ∧
    ((hole_center_x r sx i (Hole.slot rad len ang) - len / 2 * Real.cos ang)
        + (hole_center_x r sx i (Hole.slot rad len ang) + len / 2 * Real.cos ang)) / 2
      = hole_center_x r sx i (Hole.slot rad len ang) ∧
    ((hole_center_y r sy (Hole.slot rad len ang) + len / 2 * Real.sin ang)
        + (hole_center_y r sy (Hole.slot rad len ang) - len / 2 * Real.sin ang)) / 2
      = hole_center_y r sy (Hole.slot rad len ang) ∧
    (∀ x1 y1 x2 y2 : ℝ, Shape.line x1 y1 x2 y2 ∉ (add_rectangle r sx sy).fst) := by
  have hout : (add_rectangle r sx sy).fst
      = Shape.outline sx sy r.width r.height :: drawHoles r sx sy 0 r.holes := by
    unfold add_rectangle
    rw [if_neg (by omega)]
  have hmem : ∀ s ∈ holeShapes (hole_center_x r sx i (Hole.slot rad len ang))
      (hole_center_y r sy (Hole.slot rad len ang)) (Hole.slot rad len ang),
      s ∈ (add_rectangle r sx sy).fst := by
    intro s hs
    rw [hout]
    exact List.mem_cons_of_mem _
      (mem_drawHoles r sx sy r.holes 0 i (Hole.slot rad len ang) hi s
        (by simpa using hs))
  refine ⟨rfl, ?_, ?_, by ring, by ring, fun x1 y1 x2 y2 => add_rectangle_no_line r sx sy x1 y1 x2 y2⟩
  · exact hmem _ (by simp [holeShapes])
  · exact hmem _ (by simp [holeShapes])

/-- Witness for C8 on the concrete plate `slotRect`, whose hole 0 is
Slot(1, 4, 0). -/
theorem add_rectangle_slot_two_circles_witness :
    (slotRect.holes.get? 0 = some (Hole.slot 1 4 0) ∧ 2 ≤ slotRect.holes.length) ∧
    (holeShapes (hole_center_x slotRect 0 0 (Hole.slot 1 4 0))
        (hole_center_y slotRect 0 (Hole.slot 1 4 0)) (Hole.slot 1 4 0)
      = [Shape.circle
            (hole_center_x slotRect 0 0 (Hole.slot 1 4 0) - 4 / 2 * Real.cos 0)
            (hole_center_y slotRect 0 (Hole.slot 1 4 0) + 4 / 2 * Real.sin 0) 1,
         Shape.circle
            (hole_center_x slotRect 0 0 (Hole.slot 1 4 0) + 4 / 2 * Real.cos 0)
            (hole_center_y slotRect 0 (Hole.slot 1 4 0) - 4 / 2 * Real.sin 0) 1] ∧
    Shape.circle
        (hole_center_x slotRect 0 0 (Hole.slot 1 4 0) - 4 / 2 * Real.cos 0)
        (hole_center_y slotRect 0 (Hole.slot 1 4 0) + 4 / 2 * Real.sin 0) 1
      ∈ (add_rectangle slotRect 0 0).fst ∧
    Shape.circle
        (hole_center_x slotRect 0 0 (Hole.slot 1 4 0) + 4 / 2 * Real.cos 0)
        (hole_center_y slotRect 0 (Hole.slot 1 4 0) - 4 / 2 * Real.sin 0) 1
      ∈ (add_rectangle slotRect 0 0).fst ∧
    ((hole_center_x slotRect 0 0 (Hole.slot 1 4 0) - 4 / 2 * Real.cos 0)
        + (hole_center_x slotRect 0 0 (Hole.slot 1 4 0) + 4 / 2 * Real.cos 0)) / 2
      = hole_center_x slotRect 0 0 (Hole.slot 1 4 0) ∧
    ((hole_center_y slotRect 0 (Hole.slot 1 4 0) + 4 / 2 * Real.sin 0)
        + (hole_center_y slotRect 0 (Hole.slot 1 4 0) - 4 / 2 * Real.sin 0)) / 2
      = hole_center_y slotRect 0 (Hole.slot 1 4 0) ∧
    (∀ x1 y1 x2 y2 : ℝ, Shape.line x1 y1 x2 y2 ∉ (add_rectangle slotRect 0 0).fst)) :=
  ⟨⟨rfl, by norm_num [slotRect]⟩,
   add_rectangle_slot_two_circles slotRect 0 0 0 1 4 0 rfl (by norm_num [slotRect])⟩

/-- C1: on a rectangle holding two validly attached holes of different widths
(Circle(1) then Circle(2), origin (0,0)), the code places the second hole's
center at x = 20 using `i * hole.width` with the CURRENT hole's width, while
the claimed formula (sum of widths of earlier holes) puts it at x = 18; the
resulting edge-to-edge gap between the two holes is 16, not the uniform gap
value 14, so the equal-gap consequence fails as well. -/
theorem layout_center_mismatch_two_holes :
    addHoles (Rectangle.init 20 10 0 0 1) [Hole.circle 1, Hole.circle 2]
      = (unevenRect, none) ∧
    space_between_holes unevenRect = 14 ∧
    hole_center_x unevenRect 0 1 (Hole.circle 2) = 20 ∧
    claimed_center_x unevenRect 0 1 (Hole.circle 2) = 18 ∧
    (add_rectangle unevenRect 0 0).fst
      = [Shape.outline 0 0 20 10, Shape.circle 1 1 1, Shape.circle 20 2 2] ∧
    (hole_center_x unevenRect 0 1 (Hole.circle 2) - Hole.width (Hole.circle 2) / 2)
        - (hole_center_x unevenRect 0 0 (Hole.circle 1)
            + Hole.width (Hole.circle 1) / 2) = 16 := by
  refine ⟨?_, ?_, ?_, ?_, ?_, ?_⟩
  · norm_num [addHoles, appendHole, Rectangle.init, unevenRect,
      Hole.width, Hole.height, Rectangle.mk.injEq]
  · norm_num [space_between_holes, unevenRect]
  · norm_num [hole_center_x, space_between_holes, unevenRect, Hole.width]
  · norm_num [claimed_center_x, space_between_holes, unevenRect, Hole.width]
  · norm_num [add_rectangle, unevenRect, drawHoles, holeShapes,
      hole_center_x, hole_center_y, space_between_holes, Hole.width, Hole.height]
  · norm_num [hole_center_x, space_between_holes, unevenRect, Hole.width]

end Dxf
